import Mathlib

/-!
Shallow embedding of the conversation-state and event-routing core of the
voice-agent demo repository:

- `AgentRoute` embeds `app/api/agent/route.ts`: the webhook event router
  (signature gate, per-type dispatch) and the dual-backend conversation store
  (Vercel KV vs in-process map with a one-time fallback warning).
- `VoiceClient` embeds the client transcript reassembler
  (`updateUserTranscript`, `upsertMessage`, `handleAgentMessage` from the
  voice UI component): counter-keyed chunk buffers per turn.

External collaborators (the KV service, the signature check of the platform
SDK, the text-generation call, the streaming response helper) are modelled as
explicit parameters or state: KV entries hold the message values themselves
(the JSON round-trip of the source is modelled as the identity), signature
verification is a boolean input, and the generation call is an input of type
`Except String GenResult` so that an upstream failure with a message can be
represented. Observable actions (store mutations, the generation call, speech
output, closing the stream, the fallback warning) are recorded in an effect
trace.
-/

namespace AgentRoute

/-- Text part of a UI message: `{type: 'text', text: string}` in the source. -/
structure TextPart where
  type : String
  text : String
deriving DecidableEq, Repr

/-- A conversation message as stored by the route. The source attaches
`metadata: { conversation_id }`; the metadata wrapper is flattened into the
`conversation_id` field here. -/
structure UIMessage where
  id : String
  role : String
  conversation_id : String
  parts : List TextPart
deriving DecidableEq, Repr

/-- The parsed webhook body `{conversation_id, text, turn_id, type}`. The
source casts the JSON body to a union type, but at runtime any string can
arrive in `type`; the switch has a default branch for that, so `type` is a
plain string here. -/
structure WebhookRequest where
  conversation_id : String
  text : String
  turn_id : String
  type : String
deriving DecidableEq, Repr

/-- Process-level state of the route module: the KV-configured flag, the
in-process fallback map `inMemoryConversations`, the KV backend (list value
and TTL per key, with the JSON serialisation modelled as the identity), and
the one-time warning flag `kvWarningShown`. -/
structure ProcState where
  isKvConfigured : Bool
  inMemoryConversations : String → Option (List UIMessage)
  kvList : String → Option (List UIMessage)
  kvTtl : String → Option Nat
  kvWarningShown : Bool

/-- Observable actions performed by the route, in order. -/
inductive Effect where
  | warn : Effect
  | storeReset (conversationId : String) : Effect
  | storeAppend (conversationId : String) (messages : List UIMessage) : Effect
  | genCall (system : String) (context : List UIMessage) : Effect
  | tts (text : String) : Effect
  | streamEnd : Effect
deriving DecidableEq, Repr

/-- `CONVERSATION_TTL_SECONDS = 60 * 60 * 12` from the source. -/
def CONVERSATION_TTL_SECONDS : Nat := 60 * 60 * 12

/-- Modelled from the spec: the configured welcome message. The file
`layercode.config.json` it is read from is not among the sources, and no
property below depends on its concrete text, so it is an opaque constant. -/
def WELCOME_MESSAGE : String := "welcome_message from layercode.config.json"

/-- Modelled from the spec: the system prompt, configured persona plus
formatted knowledge base. Its concrete text is irrelevant to the properties
below. -/
def SYSTEM_PROMPT : String := "config.prompt plus formatted knowledge base"

/-- `conversationKey` from the source. -/
def conversationKey (conversationId : String) : String :=
  "layercode:conversation:" ++ conversationId

/-- `warnAboutKvFallback` from the source: warn once per process when KV is
not configured. Returns the updated state and the emitted warning effects. -/
def warnAboutKvFallback (st : ProcState) : ProcState × List Effect :=
  if st.isKvConfigured || st.kvWarningShown then (st, [])
  else ({ st with kvWarningShown := true }, [Effect.warn])

/-- `getConversationMessages` from the source. Returns the stored messages
(empty list when none), the updated state, and the emitted effects. -/
def getConversationMessages (conversationId : String) (st : ProcState) :
    List UIMessage × ProcState × List Effect :=
  if !st.isKvConfigured then
    let r := warnAboutKvFallback st
    ((r.1.inMemoryConversations conversationId).getD [], r.1, r.2)
  else
    ((st.kvList (conversationKey conversationId)).getD [], st, [])

/-- `appendConversationMessages` from the source: early return on an empty
input, otherwise append in order; on the KV backend also reset the TTL. -/
def appendConversationMessages (conversationId : String)
    (messages : List UIMessage) (st : ProcState) : ProcState × List Effect :=
  if messages.length = 0 then (st, [])
  else if !st.isKvConfigured then
    let r := warnAboutKvFallback st
    let existing := (r.1.inMemoryConversations conversationId).getD []
    ({ r.1 with inMemoryConversations := fun k =>
        if k = conversationId then some (existing ++ messages)
        else r.1.inMemoryConversations k },
     r.2 ++ [Effect.storeAppend conversationId messages])
  else
    let key := conversationKey conversationId
    ({ st with
        kvList := fun k =>
          if k = key then some ((st.kvList key).getD [] ++ messages) else st.kvList k,
        kvTtl := fun k =>
          if k = key then some CONVERSATION_TTL_SECONDS else st.kvTtl k },
     [Effect.storeAppend conversationId messages])

/-- `resetConversationMessages` from the source: delete the entry. -/
def resetConversationMessages (conversationId : String) (st : ProcState) :
    ProcState × List Effect :=
  if !st.isKvConfigured then
    let r := warnAboutKvFallback st
    ({ r.1 with inMemoryConversations := fun k =>
        if k = conversationId then none else r.1.inMemoryConversations k },
     r.2 ++ [Effect.storeReset conversationId])
  else
    let key := conversationKey conversationId
    ({ st with kvList := fun k => if k = key then none else st.kvList k,
               kvTtl := fun k => if k = key then none else st.kvTtl k },
     [Effect.storeReset conversationId])

/-- Content of one message of the generation response: a plain string or an
array of typed parts, as in the source `Array.isArray(message.content)`. -/
inductive ModelContent where
  | str (text : String)
  | parts (ps : List TextPart)
deriving DecidableEq, Repr

/-- One message of `response.messages` delivered to `onFinish`. -/
structure ResponseMessage where
  role : String
  content : ModelContent
deriving DecidableEq, Repr

/-- Outcome of a successful generation call: the streamed text and the
response messages handed to `onFinish`. -/
structure GenResult where
  streamedText : String
  messages : List ResponseMessage
deriving DecidableEq, Repr

/-- The mapping in `onFinish` of the source: keep assistant-role messages,
wrap each as a UI message with a freshly generated identifier (the source
calls `crypto.randomUUID()` per message; the supply is modelled as `uuid`
applied to consecutive indices) and text-only parts. -/
def generatedMessages (conversation_id : String) (uuid : Nat → String)
    (resp : List ResponseMessage) : List UIMessage :=
  ((resp.filter (fun m => m.role == "assistant")).enum).map (fun nm =>
    { id := uuid nm.1, role := "assistant", conversation_id := conversation_id,
      parts :=
        match nm.2.content with
        | ModelContent.parts ps =>
            (ps.filter (fun p => p.type == "text")).map
              (fun p => { type := "text", text := p.text })
        | ModelContent.str s => [{ type := "text", text := s }] })

/-- The user message the handler constructs from the event. -/
def userMessageOf (req : WebhookRequest) : UIMessage :=
  { id := req.turn_id, role := "user", conversation_id := req.conversation_id,
    parts := [{ type := "text", text := req.text }] }

/-- The fixed welcome assistant message appended on `session.start`; note its
identifier is the turn identifier of the event. -/
def welcomeMessageOf (req : WebhookRequest) : UIMessage :=
  { id := req.turn_id, role := "assistant", conversation_id := req.conversation_id,
    parts := [{ type := "text", text := WELCOME_MESSAGE }] }

/-- Result of a handler invocation that produced an HTTP response. -/
structure HandlerOutcome where
  status : Nat
  state : ProcState
  trace : List Effect

/-- The `POST` handler of `app/api/agent/route.ts`. Signature verification is
the boolean `signatureValid` (the check itself lives in the platform SDK);
`gen` is the outcome of the text-generation call; `uuid` is the fresh
identifier supply. A value `Except.error m` models a failure thrown during
processing that the handler does not catch: the source `POST` has no
try/catch, so the failure leaves the handler unconverted. The streaming
response helper is modelled as a status-200 response whose speech writes and
close appear in the trace. -/
def POST (signatureValid : Bool) (req : WebhookRequest)
    (gen : Except String GenResult) (uuid : Nat → String) (st : ProcState) :
    Except String HandlerOutcome :=
  if !signatureValid then Except.ok { status := 401, state := st, trace := [] }
  else
    let r1 := if req.type == "session.start"
      then resetConversationMessages req.conversation_id st else (st, [])
    let r2 := getConversationMessages req.conversation_id r1.1
    let existingMessages := r2.1
    let userMessage := userMessageOf req
    let r3 := appendConversationMessages req.conversation_id [userMessage] r2.2.1
    if req.type == "session.start" then
      let message := welcomeMessageOf req
      let r4 := appendConversationMessages req.conversation_id [message] r3.1
      Except.ok
        { status := 200, state := r4.1,
          trace := r1.2 ++ r2.2.2 ++ r3.2 ++ r4.2
            ++ [Effect.tts WELCOME_MESSAGE, Effect.streamEnd] }
    else if req.type == "message" then
      let conversationForModel := existingMessages ++ [userMessage]
      match gen with
      | Except.error msg => Except.error msg
      | Except.ok result =>
        let generated := generatedMessages req.conversation_id uuid result.messages
        let r4 := appendConversationMessages req.conversation_id generated r3.1
        Except.ok
          { status := 200, state := r4.1,
            trace := r1.2 ++ r2.2.2 ++ r3.2
              ++ [Effect.genCall SYSTEM_PROMPT conversationForModel,
                  Effect.tts result.streamedText]
              ++ r4.2 ++ [Effect.streamEnd] }
    else if req.type == "session.end" then
      Except.ok { status := 200, state := r3.1, trace := r1.2 ++ r2.2.2 ++ r3.2 }
    else if req.type == "session.update" then
      Except.ok { status := 200, state := r3.1, trace := r1.2 ++ r2.2.2 ++ r3.2 }
    else
      Except.ok { status := 400, state := r3.1, trace := r1.2 ++ r2.2.2 ++ r3.2 }

/-- Observer: the conversation log currently stored for an identifier, read
from whichever backend is selected (mirrors the read path of
`getConversationMessages` without effects). -/
def storedMessages (st : ProcState) (conversationId : String) : List UIMessage :=
  if !st.isKvConfigured then (st.inMemoryConversations conversationId).getD []
  else (st.kvList (conversationKey conversationId)).getD []

/-- Effects that are store mutations or the generation call, used to project
handler traces onto the events the ordering claims speak about. -/
def isStoreOrGen : Effect → Bool
  | Effect.storeReset _ => true
  | Effect.storeAppend _ _ => true
  | Effect.genCall _ _ => true
  | _ => false

/-- Warning effect recogniser. -/
def isWarn : Effect → Bool
  | Effect.warn => true
  | _ => false

/-- Number of fallback warnings in a trace. -/
def warnCount (trace : List Effect) : Nat := (trace.filter isWarn).length

/-- One operation of the Conversation Store contract. -/
inductive StoreOp where
  | get (conversationId : String)
  | append (conversationId : String) (messages : List UIMessage)
  | reset (conversationId : String)

/-- Run one store operation. -/
def runStoreOp (st : ProcState) : StoreOp → ProcState × List Effect
  | StoreOp.get c =>
    let r := getConversationMessages c st
    (r.2.1, r.2.2)
  | StoreOp.append c msgs => appendConversationMessages c msgs st
  | StoreOp.reset c => resetConversationMessages c st

/-- Run a sequence of store operations, accumulating effects in order. -/
def runStoreOps (st : ProcState) : List StoreOp → ProcState × List Effect
  | [] => (st, [])
  | op :: ops =>
    let r1 := runStoreOp st op
    let r2 := runStoreOps r1.1 ops
    (r2.1, r1.2 ++ r2.2)

/-- A store operation that reaches the backend-selection check: everything
except an append with an empty message list, which returns before the check. -/
def isEffectiveOp : StoreOp → Bool
  | StoreOp.append _ messages => messages.length != 0
  | _ => true

/-- Fresh process state: chosen backend, no conversations, warning not yet
shown. -/
def initialState (kvConfigured : Bool) : ProcState :=
  { isKvConfigured := kvConfigured,
    inMemoryConversations := fun _ => none,
    kvList := fun _ => none,
    kvTtl := fun _ => none,
    kvWarningShown := false }

end AgentRoute

namespace VoiceClient

/-- A JavaScript number as the reassembler uses it: the counters that occur
are integers, plus NaN as produced by coercing a non-numeric string. -/
inductive JSNum where
  | nan : JSNum
  | int (n : Int) : JSNum
deriving DecidableEq, Repr

/-- Ordering used to model the sort by the comparator `(a, b) => a - b` of
the source. On integers this is numeric order; a comparator involving NaN
returns NaN, for which the order chosen by `Array.sort` is
implementation-defined, and NaN is modelled as collating first. No property
below depends on the position of a NaN key. -/
def jsLe : JSNum → JSNum → Bool
  | JSNum.nan, _ => true
  | JSNum.int _, JSNum.nan => false
  | JSNum.int a, JSNum.int b => a ≤ b

/-- JavaScript `Map.get`, on a map modelled as an insertion-ordered
association list. -/
def jsMapGet {κ β : Type} [BEq κ] (m : List (κ × β)) (k : κ) : Option β :=
  (m.find? (fun p => p.1 == k)).map (fun p => p.2)

/-- JavaScript `Map.set`: overwrite in place when the key exists (keys keep
their insertion position), otherwise add at the end. Key equality is
SameValueZero, under which NaN equals NaN; `BEq` on `JSNum` matches that. -/
def jsMapSet {κ β : Type} [BEq κ] (m : List (κ × β)) (k : κ) (v : β) :
    List (κ × β) :=
  if m.any (fun p => p.1 == k) then
    m.map (fun p => if p.1 == k then (k, v) else p)
  else m ++ [(k, v)]

/-- JavaScript `Map.delete`. -/
def jsMapDelete {κ β : Type} [BEq κ] (m : List (κ × β)) (k : κ) :
    List (κ × β) :=
  m.filter (fun p => !(p.1 == k))

/-- The `turn_id` field of an event: `string | number` in the source. -/
inductive TurnIdValue where
  | str (s : String)
  | num (v : JSNum)
deriving DecidableEq, Repr

/-- JavaScript `String(turn_id)` coercion. -/
def jsStringOfTurnId : TurnIdValue → String
  | TurnIdValue.str s => s
  | TurnIdValue.num (JSNum.int n) => toString n
  | TurnIdValue.num JSNum.nan => "NaN"

/-- The `delta_counter` field of an event: `number | string` in the source. -/
inductive CounterValue where
  | num (v : JSNum)
  | str (s : String)
deriving DecidableEq, Repr

/-- Digit value of a character. -/
def digitVal (c : Char) : Option Nat :=
  if c = '0' then some 0 else if c = '1' then some 1 else if c = '2' then some 2
  else if c = '3' then some 3 else if c = '4' then some 4 else if c = '5' then some 5
  else if c = '6' then some 6 else if c = '7' then some 7 else if c = '8' then some 8
  else if c = '9' then some 9 else none

/-- Reads a non-empty all-digit character list as a natural number. -/
def natOfDigitsAux : List Char → Nat → Option Nat
  | [], acc => some acc
  | c :: cs, acc =>
    match digitVal c with
    | some d => natOfDigitsAux cs (acc * 10 + d)
    | none => none

/-- Reads a digit string; the empty list has no digits and is rejected. -/
def natOfDigits : List Char → Option Nat
  | [] => none
  | cs => natOfDigitsAux cs 0

/-- Whitespace as trimmed by the JavaScript number coercion. -/
def isJsSpace (c : Char) : Bool :=
  c = ' ' || c = '\t' || c = '\n' || c = '\r'

/-- Modelled from the spec: the JavaScript `Number(string)` coercion applied
by the reassembler to a string `delta_counter`. It never yields `undefined`:
every string coerces to a number, NaN included. The model is restricted to
optional-sign decimal integer strings, the only numeric shape the counters
take; the empty or all-whitespace string coerces to 0 as in JavaScript, and
every other string without a plain integer form coerces to NaN. -/
def jsNumberOfString (s : String) : JSNum :=
  let cs := ((s.data.dropWhile isJsSpace).reverse.dropWhile isJsSpace).reverse
  match cs with
  | [] => JSNum.int 0
  | '-' :: rest =>
    match natOfDigits rest with
    | some n => JSNum.int (-(n : Int))
    | none => JSNum.nan
  | '+' :: rest =>
    match natOfDigits rest with
    | some n => JSNum.int (n : Int)
    | none => JSNum.nan
  | _ =>
    match natOfDigits cs with
    | some n => JSNum.int (n : Int)
    | none => JSNum.nan

/-- The `counter` computation of `updateUserTranscript`:
`typeof raw === 'number' ? raw : raw != null ? Number(raw) : undefined`. -/
def computeCounter : Option CounterValue → Option JSNum
  | some (CounterValue.num v) => some v
  | some (CounterValue.str s) => some (jsNumberOfString s)
  | none => none

/-- A transcript chunk `{counter, text}` as displayed. -/
structure TranscriptChunk where
  counter : JSNum
  text : String
deriving DecidableEq, Repr

/-- A display entry of the conversation list. -/
structure ClientMessage where
  role : String
  text : String
  turnId : Option String
  chunks : Option (List TranscriptChunk)
deriving DecidableEq, Repr

/-- Client component state: display entries plus the per-turn chunk buffers
`userChunksByTurn`. -/
structure ClientState where
  messages : List ClientMessage
  userChunksByTurn : List (String × List (JSNum × String))
deriving DecidableEq, Repr

/-- An event of the client event stream
`{type?, turn_id?, delta_counter?, content?}`. -/
structure AgentEvent where
  type : Option String
  turn_id : Option TurnIdValue
  delta_counter : Option CounterValue
  content : Option String
deriving DecidableEq, Repr

/-- `upsertMessage` from the source: without a truthy turn identifier the
entry is appended; otherwise the first entry with the same turn identifier
and role is updated in place (replacing or extending its text, and taking the
new chunks when present), and a missing entry is appended. -/
def upsertMessage (prev : List ClientMessage) (next : ClientMessage)
    (replace : Bool) : List ClientMessage :=
  if (next.turnId.getD "") == "" then prev ++ [next]
  else
    match prev.findIdx? (fun msg => msg.turnId == next.turnId && msg.role == next.role) with
    | none => prev ++ [next]
    | some index =>
      prev.enum.map (fun im =>
        if im.1 = index then
          { im.2 with
              text := if replace then next.text else im.2.text ++ next.text,
              chunks :=
                match next.chunks with
                | some cs => some cs
                | none => im.2.chunks }
        else im.2)

/-- `clearTurn` from the source: drop the chunk buffer of a turn. -/
def clearTurn (st : ClientState) (turnId : String) : ClientState :=
  { st with userChunksByTurn := jsMapDelete st.userChunksByTurn turnId }

/-- Sort of the buffered entries by the comparator on counters:
`[...turnMap.entries()].sort(([a], [b]) => a - b)` in the source. -/
def sortChunkPairs (entries : List (JSNum × String)) : List (JSNum × String) :=
  List.insertionSort (fun p q => jsLe p.1 q.1 = true) entries

/-- `updateUserTranscript` from the source. With a truthy turn identifier and
a defined counter, the chunk is stored under its counter and the text of the
turn is replaced by the concatenation of the buffered chunks sorted by
counter; otherwise the buffer of the turn (when identified) is discarded and
the raw content replaces the text. -/
def updateUserTranscript (st : ClientState) (event : AgentEvent) : ClientState :=
  let turnId : Option String := event.turn_id.map jsStringOfTurnId
  let content : String := event.content.getD ""
  let counter : Option JSNum := computeCounter event.delta_counter
  if (turnId.getD "") == "" || counter.isNone then
    let st1 :=
      match turnId with
      | some t => if t == "" then st else clearTurn st t
      | none => st
    { st1 with
        messages := upsertMessage st1.messages
          { role := "user", text := content, turnId := turnId, chunks := some [] }
          true }
  else
    let t := turnId.getD ""
    let c := counter.getD JSNum.nan
    let turnMap := (jsMapGet st.userChunksByTurn t).getD []
    let turnMap2 := jsMapSet turnMap c content
    let byTurn := jsMapSet st.userChunksByTurn t turnMap2
    let chunks := (sortChunkPairs turnMap2).map
      (fun p => { counter := p.1, text := p.2 : TranscriptChunk })
    let aggregatedText := String.join (chunks.map (fun chunk => chunk.text))
    { messages := upsertMessage st.messages
        { role := "user", text := aggregatedText, turnId := some t,
          chunks := some chunks }
        true,
      userChunksByTurn := byTurn }

/-- `appendAssistantMessage` from the source (upsert without replacement). -/
def appendAssistantMessage (st : ClientState) (event : AgentEvent) : ClientState :=
  { st with
      messages := upsertMessage st.messages
        { role := "assistant", text := event.content.getD "",
          turnId := event.turn_id.map jsStringOfTurnId, chunks := none }
        false }

/-- `handleAgentMessage` from the source: dispatch on the event type. -/
def handleAgentMessage (st : ClientState) (evt : AgentEvent) : ClientState :=
  let type := evt.type.getD ""
  if type == "" then st
  else if type == "turn.end" && evt.turn_id.isSome then
    clearTurn st (jsStringOfTurnId (evt.turn_id.getD (TurnIdValue.str "")))
  else if type == "user.transcript.delta" || type == "user.transcript.interim_delta" then
    updateUserTranscript st evt
  else if type == "response.text" then
    appendAssistantMessage st evt
  else st

/-- Sequential processing of the event stream (event handlers run to
completion in order). -/
def processEvents (st : ClientState) (events : List AgentEvent) : ClientState :=
  events.foldl handleAgentMessage st

/-- Fresh client state. -/
def initialClientState : ClientState :=
  { messages := [], userChunksByTurn := [] }

/-- Text the UI displays for a user turn: the chunk texts when a non-empty
chunk list is attached, the plain text otherwise, the empty string when the
turn has no entry (mirrors the render expression of the transcript list). -/
def displayedUserText (st : ClientState) (turnId : String) : String :=
  match st.messages.find? (fun msg => msg.turnId == some turnId && msg.role == "user") with
  | none => ""
  | some msg =>
    match msg.chunks with
    | some chunks =>
      if chunks.length != 0 then String.join (chunks.map (fun c => c.text))
      else msg.text
    | none => msg.text

/-- A transcript-delta event with a string turn identifier, an integer
counter and the given content. -/
def deltaEvent (turnId : String) (counter : Int) (content : String) : AgentEvent :=
  { type := some "user.transcript.delta",
    turn_id := some (TurnIdValue.str turnId),
    delta_counter := some (CounterValue.num (JSNum.int counter)),
    content := some content }

/-- Embedding of an integer-counter chunk into the buffer representation. -/
def embedChunk (p : Int × String) : JSNum × String := (JSNum.int p.1, p.2)

/-- Stated from the spec side: the event contents sorted by ascending
counter, the reference value the reassembled text is compared against. -/
def sortIntPairs (l : List (Int × String)) : List (Int × String) :=
  List.insertionSort (fun p q => p.1 ≤ q.1) l

/-- Embedding of a list of integer-counter chunks into the buffer
representation. -/
def embedChunks (l : List (Int × String)) : List (JSNum × String) :=
  l.map embedChunk

/-- The chunk list the reassembler computes from a buffer. -/
def chunksOfPairs (pairs : List (JSNum × String)) : List TranscriptChunk :=
  (sortChunkPairs pairs).map (fun p => { counter := p.1, text := p.2 })

/-- The aggregated text the reassembler computes from a buffer. -/
def aggOf (pairs : List (JSNum × String)) : String :=
  String.join ((chunksOfPairs pairs).map (fun chunk => chunk.text))

/-- The client state reached after a turn has absorbed the given chunks in
delivery order, used as the induction invariant of the reassembly proof. -/
def invState (turnId : String) (processed : List (Int × String)) : ClientState :=
  if processed.isEmpty then initialClientState
  else
    { messages := [{ role := "user", text := aggOf (embedChunks processed),
                     turnId := some turnId,
                     chunks := some (chunksOfPairs (embedChunks processed)) }],
      userChunksByTurn := [(turnId, embedChunks processed)] }

end VoiceClient

namespace AgentRoute

theorem warnAboutKvFallback_inMemory (st : ProcState) :
    (warnAboutKvFallback st).1.inMemoryConversations = st.inMemoryConversations := by
  unfold warnAboutKvFallback
  split <;> rfl

theorem warnAboutKvFallback_isKv (st : ProcState) :
    (warnAboutKvFallback st).1.isKvConfigured = st.isKvConfigured := by
  unfold warnAboutKvFallback
  split <;> rfl

theorem storedMessages_warnAboutKvFallback (st : ProcState) (x : String) :
    storedMessages (warnAboutKvFallback st).1 x = storedMessages st x := by
  unfold warnAboutKvFallback storedMessages
  split <;> rfl

theorem warnAboutKvFallback_trace (st : ProcState) :
    ((warnAboutKvFallback st).2).filter isStoreOrGen = [] := by
  unfold warnAboutKvFallback
  split <;> rfl

theorem storedMessages_get (c : String) (st : ProcState) (x : String) :
    storedMessages (getConversationMessages c st).2.1 x = storedMessages st x := by
  unfold getConversationMessages
  split
  · exact storedMessages_warnAboutKvFallback st x
  · rfl

theorem getConversationMessages_val (c : String) (st : ProcState) :
    (getConversationMessages c st).1 = storedMessages st c := by
  unfold getConversationMessages storedMessages
  by_cases hkv : st.isKvConfigured <;>
    simp [hkv, warnAboutKvFallback_inMemory]

theorem getConversationMessages_trace (c : String) (st : ProcState) :
    ((getConversationMessages c st).2.2).filter isStoreOrGen = [] := by
  unfold getConversationMessages
  split
  · exact warnAboutKvFallback_trace st
  · rfl

theorem storedMessages_append (c : String) (msgs : List UIMessage) (st : ProcState) :
    storedMessages (appendConversationMessages c msgs st).1 c
      = storedMessages st c ++ msgs := by
  unfold appendConversationMessages
  by_cases h0 : msgs.length = 0
  · have hnil : msgs = [] := List.length_eq_zero.mp h0
    subst hnil
    simp
  · by_cases hkv : st.isKvConfigured
    · unfold storedMessages
      simp [h0, hkv]
    · unfold storedMessages
      simp [h0, hkv, warnAboutKvFallback_isKv, warnAboutKvFallback_inMemory,
        storedMessages_warnAboutKvFallback]

theorem appendConversationMessages_trace (c : String) (msgs : List UIMessage)
    (st : ProcState) :
    ((appendConversationMessages c msgs st).2).filter isStoreOrGen
      = if msgs.length = 0 then [] else [Effect.storeAppend c msgs] := by
  unfold appendConversationMessages
  by_cases h0 : msgs.length = 0
  · simp [h0]
  · by_cases hkv : st.isKvConfigured
    · simp [h0, hkv, isStoreOrGen]
    · simp [h0, hkv, List.filter_append, warnAboutKvFallback_trace, isStoreOrGen]

theorem storedMessages_reset (c : String) (st : ProcState) :
    storedMessages (resetConversationMessages c st).1 c = [] := by
  unfold resetConversationMessages
  by_cases hkv : st.isKvConfigured
  · unfold storedMessages
    simp [hkv]
  · unfold storedMessages
    simp [hkv, warnAboutKvFallback_isKv]

theorem resetConversationMessages_trace (c : String) (st : ProcState) :
    ((resetConversationMessages c st).2).filter isStoreOrGen
      = [Effect.storeReset c] := by
  unfold resetConversationMessages
  by_cases hkv : st.isKvConfigured
  · simp [hkv, isStoreOrGen]
  · simp [hkv, List.filter_append, warnAboutKvFallback_trace, isStoreOrGen]

/-- C3: with an invalid signature the handler answers 401 immediately: the
process state is returned untouched (no store mutation, the conversation log
of every identifier is unchanged) and no effect at all is performed, in
particular no generation call. -/
theorem post_invalid_signature_no_effects (req : WebhookRequest)
    (gen : Except String GenResult) (uuid : Nat → String) (st : ProcState) :
    POST false req gen uuid st
      = Except.ok { status := 401, state := st, trace := [] } := rfl

/-- C8: appending the empty message sequence is a complete no-op on the store
state (in particular the KV TTL field is untouched); appending a non-empty
sequence appends the messages in order to the log of that conversation, and
on the KV backend sets the TTL of its key to `CONVERSATION_TTL_SECONDS`. -/
theorem append_empty_noop_nonempty_in_order (st : ProcState)
    (conversationId : String) (messages : List UIMessage) (h : messages ≠ []) :
    appendConversationMessages conversationId [] st = (st, [])
    ∧ storedMessages (appendConversationMessages conversationId messages st).1
        conversationId = storedMessages st conversationId ++ messages
    ∧ (st.isKvConfigured = true →
        (appendConversationMessages conversationId messages st).1.kvTtl
          (conversationKey conversationId) = some CONVERSATION_TTL_SECONDS) := by
  refine ⟨rfl, storedMessages_append conversationId messages st, ?_⟩
  intro hkv
  have h0 : ¬ messages.length = 0 := by
    simpa [List.length_eq_zero] using h
  unfold appendConversationMessages
  simp [h0, hkv]

/-- Witness for C8 at a concrete one-message append on the KV backend. -/
theorem append_empty_noop_nonempty_in_order_witness :
    (([{ id := "t1", role := "user", conversation_id := "c1",
         parts := [{ type := "text", text := "hi" }] }] : List UIMessage) ≠ [])
    ∧ (appendConversationMessages "c1" [] (initialState true)
        = (initialState true, [])
      ∧ storedMessages (appendConversationMessages "c1"
            [{ id := "t1", role := "user", conversation_id := "c1",
               parts := [{ type := "text", text := "hi" }] }]
            (initialState true)).1 "c1"
          = storedMessages (initialState true) "c1"
            ++ [{ id := "t1", role := "user", conversation_id := "c1",
                  parts := [{ type := "text", text := "hi" }] }]
      ∧ ((initialState true).isKvConfigured = true →
          (appendConversationMessages "c1"
              [{ id := "t1", role := "user", conversation_id := "c1",
                 parts := [{ type := "text", text := "hi" }] }]
              (initialState true)).1.kvTtl (conversationKey "c1")
            = some CONVERSATION_TTL_SECONDS)) :=
  ⟨by decide,
   append_empty_noop_nonempty_in_order (initialState true) "c1" _ (by decide)⟩

end AgentRoute

namespace AgentRoute

theorem warnCount_append (a b : List Effect) :
    warnCount (a ++ b) = warnCount a + warnCount b := by
  unfold warnCount
  rw [List.filter_append, List.length_append]

theorem runStoreOp_warn_props (st : ProcState) (op : StoreOp)
    (hkv : st.isKvConfigured = false) :
    warnCount (runStoreOp st op).2
        = (if st.kvWarningShown || !(isEffectiveOp op) then 0 else 1)
    ∧ (runStoreOp st op).1.isKvConfigured = false
    ∧ (runStoreOp st op).1.kvWarningShown
        = (st.kvWarningShown || isEffectiveOp op) := by
  by_cases hw : st.kvWarningShown
  · cases op with
    | get c =>
      unfold runStoreOp getConversationMessages warnAboutKvFallback
      simp [hkv, hw, isEffectiveOp, warnCount]
    | append c msgs =>
      by_cases h0 : msgs.length = 0
      · unfold runStoreOp appendConversationMessages
        simp [h0, hkv, hw, isEffectiveOp, warnCount]
      · unfold runStoreOp appendConversationMessages warnAboutKvFallback
        simp [h0, hkv, hw, isEffectiveOp, warnCount, isWarn]
    | reset c =>
      unfold runStoreOp resetConversationMessages warnAboutKvFallback
      simp [hkv, hw, isEffectiveOp, warnCount, isWarn]
  · cases op with
    | get c =>
      unfold runStoreOp getConversationMessages warnAboutKvFallback
      simp [hkv, hw, isEffectiveOp, warnCount, isWarn]
    | append c msgs =>
      by_cases h0 : msgs.length = 0
      · unfold runStoreOp appendConversationMessages
        simp [h0, hkv, hw, isEffectiveOp, warnCount]
      · unfold runStoreOp appendConversationMessages warnAboutKvFallback
        simp [h0, hkv, hw, isEffectiveOp, warnCount, isWarn]
    | reset c =>
      unfold runStoreOp resetConversationMessages warnAboutKvFallback
      simp [hkv, hw, isEffectiveOp, warnCount, isWarn]

theorem warnCount_runStoreOps (ops : List StoreOp) (st : ProcState)
    (hkv : st.isKvConfigured = false) :
    warnCount (runStoreOps st ops).2
      = if st.kvWarningShown then 0
        else if ops.any isEffectiveOp then 1 else 0 := by
  induction ops generalizing st with
  | nil =>
    by_cases hw : st.kvWarningShown <;> simp [runStoreOps, warnCount, hw]
  | cons op ops ih =>
    obtain ⟨hc, hkv2, hw2⟩ := runStoreOp_warn_props st op hkv
    unfold runStoreOps
    rw [warnCount_append, hc, ih _ hkv2, hw2]
    by_cases hw : st.kvWarningShown <;>
      by_cases he : isEffectiveOp op <;>
        simp [hw, he, List.any_cons]

/-- C7 counterexample: with the durable backend unconfigured, the sequence
consisting of the single store operation `append "c1" []` emits no fallback
warning at all (the empty-input early return comes before the backend
check), so the warning is not emitted exactly once for every sequence, and
in particular does not fire on the first store operation of this one. -/
theorem warn_not_fired_on_empty_append :
    warnCount (runStoreOps (initialState false) [StoreOp.append "c1" []]).2 ≠ 1 := by
  decide

/-- C7 amended: with the durable backend unconfigured, over any sequence of
store operations in one process the fallback warning is emitted at most
once: exactly once when the sequence contains an operation that reaches the
backend-selection check (a get, a reset, or an append with a non-empty
message sequence) — it then fires at the first such operation and never
again — and zero times when it contains none (an append with an empty
message sequence returns before the check and never warns). -/
theorem warn_fires_once_per_process (ops : List StoreOp) :
    warnCount (runStoreOps (initialState false) ops).2
      = if ops.any isEffectiveOp then 1 else 0 := by
  simpa [initialState] using warnCount_runStoreOps ops (initialState false) rfl

/-- C1 counterexample: a message event whose generation call fails with a
message containing the substring insufficient_balance is not answered with
HTTP 402 (nor 500) by the webhook handler: the handler has no catch and the
failure leaves `POST` as an error, not as a response. -/
theorem post_generation_failure_not_402 :
    POST true { conversation_id := "c1", text := "hi", turn_id := "t1",
                type := "message" }
        (Except.error "insufficient_balance: add funds") (fun _ => "id")
        (initialState false)
      = Except.error "insufficient_balance: add funds" := rfl

/-- C1 amended: a failure of the generation call during the processing of a
signed message event propagates out of the webhook handler uncaught and
unconverted, whatever its message text: this route maps no failure to HTTP
500 or 402 (the insufficient_balance to 402 mapping lives in the separate
session-authorization endpoint, not in the webhook handler). -/
theorem post_generation_failure_propagates (req : WebhookRequest)
    (uuid : Nat → String) (st : ProcState) (m : String)
    (h : req.type = "message") :
    POST true req (Except.error m) uuid st = Except.error m := by
  have h1 : (req.type == "session.start") = false := by rw [h]; rfl
  have h2 : (req.type == "message") = true := by rw [h]; rfl
  unfold POST
  simp [h1, h2]

/-- Witness for C1 at a concrete failing generation call. -/
theorem post_generation_failure_propagates_witness :
    (({ conversation_id := "c2", text := "hello", turn_id := "t9",
        type := "message" } : WebhookRequest).type = "message")
    ∧ POST true { conversation_id := "c2", text := "hello", turn_id := "t9",
                  type := "message" }
        (Except.error "boom") (fun _ => "id") (initialState true)
        = Except.error "boom" :=
  ⟨rfl, post_generation_failure_propagates _ _ _ _ rfl⟩

/-- C2 counterexample: a signed event with the unknown type bogus on a fresh
store is answered with HTTP 400, but the store for its conversation is
mutated first: the unconditional user-marker append runs before the dispatch
reaches the default branch, so afterwards the log holds one message. -/
theorem post_unknown_type_mutates_store :
    (POST true { conversation_id := "c1", text := "hi", turn_id := "t1",
                 type := "bogus" }
        (Except.ok { streamedText := "", messages := [] }) (fun _ => "id")
        (initialState false)).map
      (fun o => (o.status, storedMessages o.state "c1"))
      = Except.ok (400,
          [{ id := "t1", role := "user", conversation_id := "c1",
             parts := [{ type := "text", text := "hi" }] }]) := rfl

/-- C2 amended: for every signed webhook request whose event type is not one
of the four recognized types, the handler returns HTTP 400, but only after
the unconditional user-marker append: the conversation log gains exactly the
user marker message (and nothing is deleted); no other store mutation and no
generation call occur. -/
theorem post_unknown_type_appends_marker_then_400 (req : WebhookRequest)
    (gen : Except String GenResult) (uuid : Nat → String) (st : ProcState)
    (h1 : req.type ≠ "session.start") (h2 : req.type ≠ "message")
    (h3 : req.type ≠ "session.end") (h4 : req.type ≠ "session.update") :
    (POST true req gen uuid st).map
      (fun o => (o.status, storedMessages o.state req.conversation_id,
                 o.trace.filter isStoreOrGen))
      = Except.ok (400,
          storedMessages st req.conversation_id ++ [userMessageOf req],
          [Effect.storeAppend req.conversation_id [userMessageOf req]]) := by
  have b1 : (req.type == "session.start") = false := beq_eq_false_iff_ne.mpr h1
  have b2 : (req.type == "message") = false := beq_eq_false_iff_ne.mpr h2
  have b3 : (req.type == "session.end") = false := beq_eq_false_iff_ne.mpr h3
  have b4 : (req.type == "session.update") = false := beq_eq_false_iff_ne.mpr h4
  unfold POST
  simp [b1, b2, b3, b4, Except.map, List.filter_append,
    storedMessages_append, storedMessages_get,
    appendConversationMessages_trace, getConversationMessages_trace]

/-- Witness for C2 at a concrete unrecognized event type. -/
theorem post_unknown_type_appends_marker_then_400_witness :
    (({ conversation_id := "c3", text := "x", turn_id := "t3",
        type := "mystery" } : WebhookRequest).type ≠ "session.start")
    ∧ (POST true { conversation_id := "c3", text := "x", turn_id := "t3",
                   type := "mystery" }
        (Except.ok { streamedText := "", messages := [] }) (fun _ => "id")
        (initialState true)).map
      (fun o => (o.status, storedMessages o.state "c3",
                 o.trace.filter isStoreOrGen))
      = Except.ok (400,
          storedMessages (initialState true) "c3"
            ++ [userMessageOf { conversation_id := "c3", text := "x",
                                turn_id := "t3", type := "mystery" }],
          [Effect.storeAppend "c3"
            [userMessageOf { conversation_id := "c3", text := "x",
                             turn_id := "t3", type := "mystery" }]]) :=
  ⟨by decide,
   post_unknown_type_appends_marker_then_400
     { conversation_id := "c3", text := "x", turn_id := "t3", type := "mystery" }
     (Except.ok { streamedText := "", messages := [] }) (fun _ => "id")
     (initialState true)
     (by decide) (by decide) (by decide) (by decide)⟩

end AgentRoute

namespace AgentRoute

/-- C5: a signed session.start event first deletes the whole prior log of its
conversation, then appends the user marker, then appends the welcome
assistant message (the projected trace shows reset before the two appends in
that order), so whatever was stored before — three prior messages included —
the log afterwards holds exactly the two new messages. -/
theorem post_session_start_store_has_exactly_two (req : WebhookRequest)
    (gen : Except String GenResult) (uuid : Nat → String) (st : ProcState)
    (h : req.type = "session.start") :
    (POST true req gen uuid st).map
      (fun o => (o.status, storedMessages o.state req.conversation_id,
                 o.trace.filter isStoreOrGen))
      = Except.ok (200, [userMessageOf req, welcomeMessageOf req],
          [Effect.storeReset req.conversation_id,
           Effect.storeAppend req.conversation_id [userMessageOf req],
           Effect.storeAppend req.conversation_id [welcomeMessageOf req]]) := by
  have b1 : (req.type == "session.start") = true := by rw [h]; rfl
  unfold POST
  simp [b1, Except.map, List.filter_append,
    storedMessages_append, storedMessages_get, storedMessages_reset,
    appendConversationMessages_trace, getConversationMessages_trace,
    resetConversationMessages_trace, isStoreOrGen]

/-- Witness for C5: a session.start event on an in-memory store already
holding three messages ends with exactly the two new messages. -/
theorem post_session_start_store_has_exactly_two_witness :
    (({ conversation_id := "c1", text := "connected", turn_id := "t1",
        type := "session.start" } : WebhookRequest).type = "session.start")
    ∧ (POST true { conversation_id := "c1", text := "connected", turn_id := "t1",
                   type := "session.start" }
        (Except.ok { streamedText := "", messages := [] }) (fun _ => "id")
        { isKvConfigured := false,
          inMemoryConversations := fun k =>
            if k = "c1" then
              some [{ id := "a", role := "user", conversation_id := "c1",
                      parts := [{ type := "text", text := "one" }] },
                    { id := "b", role := "assistant", conversation_id := "c1",
                      parts := [{ type := "text", text := "two" }] },
                    { id := "c", role := "user", conversation_id := "c1",
                      parts := [{ type := "text", text := "three" }] }]
            else none,
          kvList := fun _ => none, kvTtl := fun _ => none,
          kvWarningShown := false }).map
      (fun o => (o.status, storedMessages o.state "c1",
                 o.trace.filter isStoreOrGen))
      = Except.ok (200,
          [userMessageOf { conversation_id := "c1", text := "connected",
                           turn_id := "t1", type := "session.start" },
           welcomeMessageOf { conversation_id := "c1", text := "connected",
                              turn_id := "t1", type := "session.start" }],
          [Effect.storeReset "c1",
           Effect.storeAppend "c1"
             [userMessageOf { conversation_id := "c1", text := "connected",
                              turn_id := "t1", type := "session.start" }],
           Effect.storeAppend "c1"
             [welcomeMessageOf { conversation_id := "c1", text := "connected",
                                 turn_id := "t1", type := "session.start" }]]) :=
  ⟨rfl,
   post_session_start_store_has_exactly_two
     { conversation_id := "c1", text := "connected", turn_id := "t1",
       type := "session.start" }
     (Except.ok { streamedText := "", messages := [] }) (fun _ => "id")
     { isKvConfigured := false,
       inMemoryConversations := fun k =>
         if k = "c1" then
           some [{ id := "a", role := "user", conversation_id := "c1",
                   parts := [{ type := "text", text := "one" }] },
                 { id := "b", role := "assistant", conversation_id := "c1",
                   parts := [{ type := "text", text := "two" }] },
                 { id := "c", role := "user", conversation_id := "c1",
                   parts := [{ type := "text", text := "three" }] }]
         else none,
       kvList := fun _ => none, kvTtl := fun _ => none,
       kvWarningShown := false }
     rfl⟩

/-- C6: for a signed message event the user message is appended to the store
before the generation call is issued and before any generated assistant
message is appended (the projected trace is append-user, then the generation
call, then — when generation produced assistant output — the append of the
generated messages); the generation context is the prior history with the
user message at its end; and the resulting log is the prior history, then
the user message, then the generated assistant messages, so every assistant
message answering the event sits strictly after its triggering user message
in log order. -/
theorem post_message_user_before_generation (req : WebhookRequest)
    (result : GenResult) (uuid : Nat → String) (st : ProcState)
    (h : req.type = "message") :
    (POST true req (Except.ok result) uuid st).map
      (fun o => (o.status, storedMessages o.state req.conversation_id,
                 o.trace.filter isStoreOrGen))
      = Except.ok (200,
          storedMessages st req.conversation_id ++ [userMessageOf req]
            ++ generatedMessages req.conversation_id uuid result.messages,
          [Effect.storeAppend req.conversation_id [userMessageOf req],
           Effect.genCall SYSTEM_PROMPT
             (storedMessages st req.conversation_id ++ [userMessageOf req])]
          ++ (if (generatedMessages req.conversation_id uuid
                    result.messages).length = 0 then []
              else [Effect.storeAppend req.conversation_id
                      (generatedMessages req.conversation_id uuid
                        result.messages)])) := by
  have b1 : (req.type == "session.start") = false := by rw [h]; rfl
  have b2 : (req.type == "message") = true := by rw [h]; rfl
  unfold POST
  simp [b1, b2, Except.map, List.filter_append, List.append_assoc,
    storedMessages_append, storedMessages_get, getConversationMessages_val,
    appendConversationMessages_trace, getConversationMessages_trace,
    isStoreOrGen]

/-- Witness for C6: a concrete message event whose generation produced one
assistant message. -/
theorem post_message_user_before_generation_witness :
    (({ conversation_id := "c1", text := "What is Layercode?", turn_id := "t2",
        type := "message" } : WebhookRequest).type = "message")
    ∧ (POST true { conversation_id := "c1", text := "What is Layercode?",
                   turn_id := "t2", type := "message" }
        (Except.ok { streamedText := "It is a voice platform.",
                     messages := [{ role := "assistant",
                                    content := ModelContent.str "It is a voice platform." }] })
        (fun n => "uuid-" ++ toString n) (initialState false)).map
      (fun o => (o.status, storedMessages o.state "c1",
                 o.trace.filter isStoreOrGen))
      = Except.ok (200,
          storedMessages (initialState false) "c1"
            ++ [userMessageOf { conversation_id := "c1",
                                text := "What is Layercode?", turn_id := "t2",
                                type := "message" }]
            ++ generatedMessages "c1" (fun n => "uuid-" ++ toString n)
                 [{ role := "assistant",
                    content := ModelContent.str "It is a voice platform." }],
          [Effect.storeAppend "c1"
             [userMessageOf { conversation_id := "c1",
                              text := "What is Layercode?", turn_id := "t2",
                              type := "message" }],
           Effect.genCall SYSTEM_PROMPT
             (storedMessages (initialState false) "c1"
               ++ [userMessageOf { conversation_id := "c1",
                                   text := "What is Layercode?", turn_id := "t2",
                                   type := "message" }])]
          ++ (if (generatedMessages "c1" (fun n => "uuid-" ++ toString n)
                    [{ role := "assistant",
                       content := ModelContent.str "It is a voice platform." }]).length = 0
              then []
              else [Effect.storeAppend "c1"
                      (generatedMessages "c1" (fun n => "uuid-" ++ toString n)
                        [{ role := "assistant",
                           content := ModelContent.str "It is a voice platform." }])])) :=
  ⟨rfl,
   post_message_user_before_generation
     { conversation_id := "c1", text := "What is Layercode?", turn_id := "t2",
       type := "message" }
     { streamedText := "It is a voice platform.",
       messages := [{ role := "assistant",
                      content := ModelContent.str "It is a voice platform." }] }
     (fun n => "uuid-" ++ toString n) (initialState false) rfl⟩

end AgentRoute

namespace AgentRoute

/-- C10: message identifiers are not unique within a conversation log. On a
signed session.start event the log ends as the user marker followed by the
welcome assistant message, and the two carry the same identifier (both the
turn identifier of the event); on a signed message event, with a fresh and
injective identifier supply, every generated assistant message appended by
the generation call carries an identifier distinct from the identifier of
its triggering user message, and the generated identifiers are pairwise
distinct. -/
theorem welcome_shares_id_generated_ids_fresh
    (reqS reqM : WebhookRequest) (genS : Except String GenResult)
    (result : GenResult) (uuid : Nat → String) (stS stM : ProcState)
    (hS : reqS.type = "session.start") (hM : reqM.type = "message")
    (hfresh : ∀ n, uuid n ≠ reqM.turn_id)
    (hinj : Function.Injective uuid) :
    ((POST true reqS genS uuid stS).map
        (fun o => storedMessages o.state reqS.conversation_id)
      = Except.ok [userMessageOf reqS, welcomeMessageOf reqS])
    ∧ (welcomeMessageOf reqS).id = (userMessageOf reqS).id
    ∧ ((POST true reqM (Except.ok result) uuid stM).map
        (fun o => storedMessages o.state reqM.conversation_id)
      = Except.ok (storedMessages stM reqM.conversation_id
          ++ [userMessageOf reqM]
          ++ generatedMessages reqM.conversation_id uuid result.messages))
    ∧ (∀ m ∈ generatedMessages reqM.conversation_id uuid result.messages,
        m.id ≠ (userMessageOf reqM).id)
    ∧ ((generatedMessages reqM.conversation_id uuid result.messages).map
        UIMessage.id).Nodup := by
  have bS : (reqS.type == "session.start") = true := by rw [hS]; rfl
  have bM1 : (reqM.type == "session.start") = false := by rw [hM]; rfl
  have bM2 : (reqM.type == "message") = true := by rw [hM]; rfl
  refine ⟨?_, rfl, ?_, ?_, ?_⟩
  · unfold POST
    simp [bS, Except.map, storedMessages_append, storedMessages_get,
      storedMessages_reset]
  · unfold POST
    simp [bM1, bM2, Except.map, List.append_assoc,
      storedMessages_append, storedMessages_get, getConversationMessages_val]
  · intro m hm
    unfold generatedMessages at hm
    obtain ⟨nm, _, rfl⟩ := List.mem_map.mp hm
    exact hfresh nm.1
  · have hmap : (generatedMessages reqM.conversation_id uuid
          result.messages).map UIMessage.id
        = (((result.messages.filter
              (fun m => m.role == "assistant")).enum).map Prod.fst).map uuid := by
      unfold generatedMessages
      simp only [List.map_map]
      rfl
    rw [hmap, List.enum_map_fst]
    exact (List.nodup_range _).map hinj

/-- Witness for C10: session.start and message events on fresh stores, the
identifier supply producing runs of the letter u, one generated assistant
message. -/
theorem welcome_shares_id_generated_ids_fresh_witness :
    ((POST true { conversation_id := "c1", text := "connected", turn_id := "t",
                  type := "session.start" }
        (Except.ok { streamedText := "", messages := [] })
        (fun n => String.mk (List.replicate (n + 1) 'u')) (initialState false)).map
      (fun o => storedMessages o.state "c1")
      = Except.ok
          [userMessageOf { conversation_id := "c1", text := "connected",
                           turn_id := "t", type := "session.start" },
           welcomeMessageOf { conversation_id := "c1", text := "connected",
                              turn_id := "t", type := "session.start" }])
    ∧ (welcomeMessageOf { conversation_id := "c1", text := "connected",
                          turn_id := "t", type := "session.start" }).id
      = (userMessageOf { conversation_id := "c1", text := "connected",
                         turn_id := "t", type := "session.start" }).id
    ∧ ((POST true { conversation_id := "c2", text := "hello", turn_id := "t",
                    type := "message" }
        (Except.ok { streamedText := "hi!",
                     messages := [{ role := "assistant",
                                    content := ModelContent.str "hi!" }] })
        (fun n => String.mk (List.replicate (n + 1) 'u')) (initialState false)).map
      (fun o => storedMessages o.state "c2")
      = Except.ok (storedMessages (initialState false) "c2"
          ++ [userMessageOf { conversation_id := "c2", text := "hello",
                              turn_id := "t", type := "message" }]
          ++ generatedMessages "c2"
               (fun n => String.mk (List.replicate (n + 1) 'u'))
               [{ role := "assistant", content := ModelContent.str "hi!" }]))
    ∧ (∀ m ∈ generatedMessages "c2"
          (fun n => String.mk (List.replicate (n + 1) 'u'))
          [{ role := "assistant", content := ModelContent.str "hi!" }],
        m.id ≠ (userMessageOf { conversation_id := "c2", text := "hello",
                                turn_id := "t", type := "message" }).id)
    ∧ ((generatedMessages "c2"
          (fun n => String.mk (List.replicate (n + 1) 'u'))
          [{ role := "assistant", content := ModelContent.str "hi!" }]).map
        UIMessage.id).Nodup :=
  welcome_shares_id_generated_ids_fresh
    { conversation_id := "c1", text := "connected", turn_id := "t",
      type := "session.start" }
    { conversation_id := "c2", text := "hello", turn_id := "t",
      type := "message" }
    (Except.ok { streamedText := "", messages := [] })
    { streamedText := "hi!",
      messages := [{ role := "assistant", content := ModelContent.str "hi!" }] }
    (fun n => String.mk (List.replicate (n + 1) 'u'))
    (initialState false) (initialState false) rfl rfl
    (by
      intro n h
      have hd := congrArg String.data h
      simp only [List.replicate_succ] at hd
      exact absurd (List.head_eq_of_cons_eq hd) (by decide))
    (by
      intro a b hab
      have hl := congrArg (fun s => s.data.length) hab
      simpa using hl)

end AgentRoute

namespace VoiceClient

theorem jsMapSet_cons_ne {κ β : Type} [BEq κ] (p : κ × β) (rest : List (κ × β))
    (k : κ) (v : β) (hp : (p.1 == k) = false) :
    jsMapSet (p :: rest) k v = p :: jsMapSet rest k v := by
  by_cases ha : rest.any (fun q => q.1 == k) <;>
    simp [jsMapSet, List.any_cons, hp, ha]

theorem jsMapGet_cons_ne {κ β : Type} [BEq κ] (p : κ × β) (rest : List (κ × β))
    (k : κ) (hp : (p.1 == k) = false) :
    jsMapGet (p :: rest) k = jsMapGet rest k := by
  simp [jsMapGet, List.find?_cons, hp]

theorem jsMapGet_jsMapSet_self {κ β : Type} [BEq κ] [LawfulBEq κ]
    (m : List (κ × β)) (k : κ) (v : β) :
    jsMapGet (jsMapSet m k v) k = some v := by
  induction m with
  | nil => simp [jsMapSet, jsMapGet]
  | cons p rest ih =>
    by_cases hp : (p.1 == k) = true
    · simp [jsMapSet, jsMapGet, List.any_cons, hp, List.find?_cons]
    · have hp2 : (p.1 == k) = false := by
        simpa using hp
      rw [jsMapSet_cons_ne p rest k v hp2, jsMapGet_cons_ne _ _ _ hp2, ih]

/-- C9: on an event that carries a turn identifier and a string
`delta_counter` without numeric form, the `Number` coercion yields NaN and
not undefined, so the missing-counter fallback (discard the buffer of the
turn, replace the text with the raw content) is not taken: the event is
treated as carrying a counter and a NaN-keyed chunk is stored into the
buffer of its turn. -/
theorem string_counter_inserts_nan_chunk (st : ClientState) (t s c : String)
    (hT : t ≠ "") (hs : jsNumberOfString s = JSNum.nan) :
    computeCounter (some (CounterValue.str s)) = some JSNum.nan
    ∧ (handleAgentMessage st
        { type := some "user.transcript.delta",
          turn_id := some (TurnIdValue.str t),
          delta_counter := some (CounterValue.str s),
          content := some c }).userChunksByTurn
      = jsMapSet st.userChunksByTurn t
          (jsMapSet ((jsMapGet st.userChunksByTurn t).getD []) JSNum.nan c) := by
  have hb : (t == "") = false := beq_eq_false_iff_ne.mpr hT
  constructor
  · simp [computeCounter, hs]
  · unfold handleAgentMessage updateUserTranscript
    simp [computeCounter, hs, jsStringOfTurnId, hb]

/-- Witness for C9: the string counter abc coerces to NaN, and the chunk is
buffered under NaN instead of the fallback running. -/
theorem string_counter_inserts_nan_chunk_witness :
    (("t1" : String) ≠ "")
    ∧ jsNumberOfString "abc" = JSNum.nan
    ∧ (computeCounter (some (CounterValue.str "abc")) = some JSNum.nan
       ∧ (handleAgentMessage initialClientState
            { type := some "user.transcript.delta",
              turn_id := some (TurnIdValue.str "t1"),
              delta_counter := some (CounterValue.str "abc"),
              content := some "hi" }).userChunksByTurn
          = jsMapSet initialClientState.userChunksByTurn "t1"
              (jsMapSet ((jsMapGet initialClientState.userChunksByTurn "t1").getD [])
                JSNum.nan "hi")) :=
  ⟨by decide, by decide,
   string_counter_inserts_nan_chunk initialClientState "t1" "abc" "hi"
     (by decide) (by decide)⟩

end VoiceClient

namespace VoiceClient

theorem embedChunks_any_key (l : List (Int × String)) (c : Int)
    (h : c ∉ l.map Prod.fst) :
    (embedChunks l).any (fun q => q.1 == JSNum.int c) = false := by
  rw [List.any_eq_false]
  intro q hq
  obtain ⟨p, hp, rfl⟩ := List.mem_map.mp hq
  simp only [embedChunk, beq_iff_eq, JSNum.int.injEq]
  intro hcp
  exact h (List.mem_map.mpr ⟨p, hp, hcp⟩)

theorem upsertMessage_replace_single (old next : ClientMessage)
    (hot : old.turnId = next.turnId) (hor : old.role = next.role)
    (hne : ((next.turnId.getD "") == "") = false)
    (cs : List TranscriptChunk) (hch : next.chunks = some cs) :
    upsertMessage [old] next true = [next] := by
  unfold upsertMessage
  simp [hne, List.findIdx?_cons, hot, hor, List.enum_cons, List.enumFrom, hch]
  cases old
  cases next
  simp_all

theorem handle_delta_step (t : String) (hT : t ≠ "")
    (processed : List (Int × String)) (c : Int) (s : String)
    (hc : c ∉ processed.map Prod.fst) :
    handleAgentMessage (invState t processed) (deltaEvent t c s)
      = invState t (processed ++ [(c, s)]) := by
  have hb : (t == "") = false := beq_eq_false_iff_ne.mpr hT
  cases processed with
  | nil =>
    unfold handleAgentMessage deltaEvent updateUserTranscript invState
    simp [hb, computeCounter, jsStringOfTurnId, jsMapGet, jsMapSet,
      upsertMessage, initialClientState, chunksOfPairs, aggOf,
      embedChunks, embedChunk, sortChunkPairs, List.insertionSort,
      List.orderedInsert]
  | cons p ps =>
    have hany : (embedChunks (p :: ps)).any (fun q => q.1 == JSNum.int c) = false :=
      embedChunks_any_key _ _ hc
    have h2 : jsMapSet (embedChunks (p :: ps)) (JSNum.int c) s
        = embedChunks (p :: ps) ++ [(JSNum.int c, s)] := by
      simp [jsMapSet, hany]
    have h4 : embedChunks (p :: (ps ++ [(c, s)]))
        = embedChunks (p :: ps) ++ [(JSNum.int c, s)] := by
      simp [embedChunks, embedChunk]
    have hup := upsertMessage_replace_single
      { role := "user", text := aggOf (embedChunks (p :: ps)),
        turnId := some t, chunks := some (chunksOfPairs (embedChunks (p :: ps))) }
      { role := "user",
        text := aggOf (embedChunks (p :: ps) ++ [(JSNum.int c, s)]),
        turnId := some t,
        chunks := some (chunksOfPairs (embedChunks (p :: ps) ++ [(JSNum.int c, s)])) }
      rfl rfl (by simpa using hb) _ rfl
    unfold handleAgentMessage deltaEvent updateUserTranscript invState
    simp only [List.cons_append, List.isEmpty_cons]
    simp [hb, computeCounter, jsStringOfTurnId, jsMapGet, jsMapSet,
      List.find?, List.any_cons, beq_self_eq_true, hany, h4]
    simpa [aggOf, chunksOfPairs, List.map_map] using hup

end VoiceClient

namespace VoiceClient

theorem processEvents_invState (t : String) (hT : t ≠ "") :
    ∀ (rest processed : List (Int × String)),
      ((processed ++ rest).map Prod.fst).Nodup →
      processEvents (invState t processed)
          (rest.map (fun p => deltaEvent t p.1 p.2))
        = invState t (processed ++ rest) := by
  intro rest
  induction rest with
  | nil =>
    intro processed _
    simp [processEvents]
  | cons q rest ih =>
    intro processed h
    have hc : q.1 ∉ processed.map Prod.fst := by
      rw [List.map_append] at h
      have hd := List.disjoint_of_nodup_append h
      intro hmem
      exact hd hmem (by simp)
    have hstep := handle_delta_step t hT processed q.1 q.2 hc
    have hnext : (((processed ++ [q]) ++ rest).map Prod.fst).Nodup := by
      simpa [List.append_assoc] using h
    have := ih (processed ++ [q]) hnext
    simp only [List.map_cons, processEvents, List.foldl_cons] at this ⊢
    rw [hstep]
    simpa [List.append_assoc] using this

theorem eq_of_perm_of_pairwise {α : Type} {r : α → α → Prop} :
    ∀ {l₁ l₂ : List α}, l₁.Perm l₂ → l₁.Pairwise r → l₂.Pairwise r →
      (∀ a ∈ l₁, ∀ b ∈ l₁, r a b → r b a → a = b) → l₁ = l₂ := by
  intro l₁
  induction l₁ with
  | nil =>
    intro l₂ hp _ _ _
    exact hp.nil_eq
  | cons a t ih =>
    intro l₂ hp hs₁ hs₂ hanti
    cases l₂ with
    | nil => exact absurd hp.eq_nil (by simp)
    | cons b t₂ =>
      have hab : a = b := by
        by_cases hne : a = b
        · exact hne
        · exfalso
          have hamem : a ∈ b :: t₂ := hp.mem_iff.mp (List.mem_cons_self a t)
          have hbmem : b ∈ a :: t := hp.mem_iff.mpr (List.mem_cons_self b t₂)
          have ha2 : a ∈ t₂ := by
            rcases List.mem_cons.mp hamem with h | h
            · exact absurd h hne
            · exact h
          have hb1 : b ∈ t := by
            rcases List.mem_cons.mp hbmem with h | h
            · exact absurd h.symm hne
            · exact h
          have rab : r a b := List.rel_of_pairwise_cons hs₁ hb1
          have rba : r b a := List.rel_of_pairwise_cons hs₂ ha2
          exact hne (hanti a (List.mem_cons_self a t) b
            (List.mem_cons_of_mem a hb1) rab rba)
      subst hab
      have ht : t = t₂ := ih hp.cons_inv hs₁.of_cons hs₂.of_cons
        (fun x hx y hy => hanti x (List.mem_cons_of_mem a hx) y
          (List.mem_cons_of_mem a hy))
      rw [ht]

theorem jsLe_total (a b : JSNum) : jsLe a b = true ∨ jsLe b a = true := by
  cases a with
  | nan => left; rfl
  | int m =>
    cases b with
    | nan => right; rfl
    | int n =>
      simp only [jsLe, decide_eq_true_eq]
      exact Int.le_total m n

theorem jsLe_trans (a b c : JSNum) (h1 : jsLe a b = true)
    (h2 : jsLe b c = true) : jsLe a c = true := by
  cases a with
  | nan => rfl
  | int m =>
    cases b with
    | nan => exact absurd h1 (by simp [jsLe])
    | int n =>
      cases c with
      | nan => exact absurd h2 (by simp [jsLe])
      | int p =>
        simp only [jsLe, decide_eq_true_eq] at h1 h2 ⊢
        exact le_trans h1 h2

theorem map_snd_embedChunks (l : List (Int × String)) :
    (embedChunks l).map Prod.snd = l.map Prod.snd := by
  simp only [embedChunks, List.map_map]
  exact List.map_congr_left (fun a _ => rfl)

theorem sortChunkPairs_embed (delivered canonical : List (Int × String))
    (hperm : delivered.Perm canonical)
    (hnodup : (canonical.map Prod.fst).Nodup) :
    sortChunkPairs (embedChunks delivered)
      = embedChunks (sortIntPairs canonical) := by
  haveI instTot : IsTotal (JSNum × String) (fun p q => jsLe p.1 q.1 = true) :=
    ⟨fun a b => jsLe_total a.1 b.1⟩
  haveI instTrans : IsTrans (JSNum × String) (fun p q => jsLe p.1 q.1 = true) :=
    ⟨fun a b c => jsLe_trans a.1 b.1 c.1⟩
  haveI instTotI : IsTotal (Int × String) (fun p q => p.1 ≤ q.1) :=
    ⟨fun a b => Int.le_total a.1 b.1⟩
  haveI instTransI : IsTrans (Int × String) (fun p q => p.1 ≤ q.1) :=
    ⟨fun a b c => le_trans⟩
  have hpermA : (sortChunkPairs (embedChunks delivered)).Perm
      (embedChunks canonical) :=
    (List.perm_insertionSort _ _).trans (hperm.map embedChunk)
  have hpermB : (embedChunks (sortIntPairs canonical)).Perm
      (embedChunks canonical) := by
    unfold embedChunks sortIntPairs
    exact (List.perm_insertionSort (fun p q => p.1 ≤ q.1) canonical).map embedChunk
  apply eq_of_perm_of_pairwise
    (r := fun p q : JSNum × String => jsLe p.1 q.1 = true)
  · exact hpermA.trans hpermB.symm
  · unfold sortChunkPairs
    exact List.sorted_insertionSort _ _
  · unfold embedChunks sortIntPairs
    have hs := List.sorted_insertionSort (fun p q : Int × String => p.1 ≤ q.1)
      canonical
    exact List.Pairwise.map embedChunk
      (fun a b hab => by
        simp only [embedChunk, jsLe, decide_eq_true_eq]
        exact hab)
      hs
  · intro a ha b hb rab rba
    have ha2 : a ∈ embedChunks canonical := hpermA.mem_iff.mp ha
    have hb2 : b ∈ embedChunks canonical := hpermA.mem_iff.mp hb
    obtain ⟨pa, hpa, rfl⟩ :=
      List.mem_map.mp (show a ∈ canonical.map embedChunk from ha2)
    obtain ⟨pb, hpb, rfl⟩ :=
      List.mem_map.mp (show b ∈ canonical.map embedChunk from hb2)
    have k1 : pa.1 ≤ pb.1 := by
      simpa [embedChunk, jsLe] using rab
    have k2 : pb.1 ≤ pa.1 := by
      simpa [embedChunk, jsLe] using rba
    have hpapb : pa = pb :=
      List.inj_on_of_nodup_map hnodup hpa hpb (le_antisymm k1 k2)
    rw [hpapb]

end VoiceClient

namespace VoiceClient

/-- C4: for every finite set of transcript-delta events with distinct integer
counters for one turn, delivered in any order (any permutation `delivered` of
the canonical set), the text displayed for that turn after all events are
processed is the concatenation of the event contents sorted by ascending
counter. -/
theorem transcript_reassembly_sorted_concat (turnId : String)
    (hT : turnId ≠ "") (delivered canonical : List (Int × String))
    (hperm : delivered.Perm canonical)
    (hnodup : (canonical.map Prod.fst).Nodup) :
    displayedUserText
        (processEvents initialClientState
          (delivered.map (fun p => deltaEvent turnId p.1 p.2)))
        turnId
      = String.join ((sortIntPairs canonical).map Prod.snd) := by
  cases delivered with
  | nil =>
    have hcan : canonical = [] := hperm.nil_eq.symm
    subst hcan
    simp [processEvents, displayedUserText, initialClientState,
      sortIntPairs, List.insertionSort, String.join]
  | cons p ps =>
    have hdnodup : ((p :: ps).map Prod.fst).Nodup :=
      ((hperm.map Prod.fst).symm).nodup hnodup
    have hrun := processEvents_invState turnId hT (p :: ps) []
      (by simpa using hdnodup)
    simp only [List.nil_append] at hrun
    have hinit : invState turnId [] = initialClientState := rfl
    rw [hinit] at hrun
    rw [hrun]
    have hlen : (chunksOfPairs (embedChunks (p :: ps))).length ≠ 0 := by
      have hp2 := (List.perm_insertionSort
        (fun a b : JSNum × String => jsLe a.1 b.1 = true)
        (embedChunks (p :: ps))).length_eq
      unfold chunksOfPairs sortChunkPairs
      rw [List.length_map, hp2]
      simp [embedChunks]
    have hmap : (chunksOfPairs (embedChunks (p :: ps))).map (fun c => c.text)
        = (sortChunkPairs (embedChunks (p :: ps))).map Prod.snd := by
      unfold chunksOfPairs
      simp only [List.map_map]
      exact List.map_congr_left (fun a _ => rfl)
    unfold displayedUserText invState
    simp only [List.isEmpty_cons, Bool.false_eq_true, if_false]
    simp [List.find?, bne_iff_ne, hlen, hmap,
      sortChunkPairs_embed (p :: ps) canonical hperm hnodup,
      map_snd_embedChunks]

/-- Witness for C4: two chunks delivered out of order reassemble to the
ascending-counter concatenation. -/
theorem transcript_reassembly_sorted_concat_witness :
    (("t1" : String) ≠ "")
    ∧ ([((2 : Int), " world"), (1, "hello")].Perm [(1, "hello"), (2, " world")])
    ∧ displayedUserText
        (processEvents initialClientState
          ([((2 : Int), " world"), (1, "hello")].map
            (fun p => deltaEvent "t1" p.1 p.2)))
        "t1"
      = String.join ((sortIntPairs [(1, "hello"), (2, " world")]).map Prod.snd) :=
  ⟨by decide, by decide,
   transcript_reassembly_sorted_concat "t1" (by decide)
     [((2 : Int), " world"), (1, "hello")] [(1, "hello"), (2, " world")]
     (by decide) (by decide)⟩

end VoiceClient
